import Mathlib

/-!
Shallow embedding of the trade lifecycle engine from the repository
(src/library/src/{state.rs, users.rs, trade.rs, history.rs, error.rs}).

Modelling conventions:
- chrono DateTime values are totally ordered timestamps; they are embedded
  as integers (only comparison and equality are used by the engine).
- iso_currency Currency is an external lookup returning a currency identity
  with a numeric code; it is embedded as a structure holding that code,
  compared structurally (the engine only compares currencies).
- Wall-clock reads (Utc::now) are passed as explicit parameters.
- The typestate tags (zero-sized generics in Rust) become an inductive
  TState used as a phantom index of TradeDetails; the CancellableState
  marker trait becomes the boolean predicate TState.cancellable, and the
  functions gated by the trait take a proof of it, so calling cancel on a
  non-cancellable state is unstatable, mirroring the compile-time gating.
- The global HISTORY ledger (a LazyLock Mutex in history.rs) is threaded
  explicitly: an operation that can touch it takes the ledger before the
  call and returns the ledger after it.
-/

/-- Timestamps from chrono DateTime Utc, embedded as integers: the engine
only compares them. -/
abbrev UtcDateTime := Int

/-- Currency identity from the external iso_currency lookup, embedded as
its numeric code; the engine compares currencies structurally. -/
structure Currency where
  code : Nat
deriving DecidableEq, Repr

/-- Display of a currency used when formatting the InvalidDetails issue
string; rendering of the external currency identity is embedded as the
numeric code rendered in decimal. -/
def Currency.display (c : Currency) : String :=
  toString c.code

/-- Counterparty newtype from trade.rs. -/
structure Counterparty where
  name : String
deriving DecidableEq, Repr

/-- Style newtype from trade.rs. -/
structure Style where
  label : String
deriving DecidableEq, Repr

/-- Direction enum from trade.rs. -/
inductive Direction
  | BUY
  | SELL
deriving DecidableEq, Repr

/-- Requester permission marker (unit struct in users.rs). -/
structure Requester
deriving DecidableEq, Repr

/-- Approver permission marker (unit struct in users.rs). -/
structure Approver
deriving DecidableEq, Repr

/-- User from users.rs: an id string with a phantom permission parameter.
Equality compares the id only, exactly as the derived PartialEq on the
Rust struct does (PhantomData always compares equal). -/
structure User (P : Type) where
  id : String
deriving Repr

instance {P : Type} : DecidableEq (User P) :=
  fun a b =>
    if h : a.id = b.id then .isTrue (by cases a; cases b; simpa using h)
    else .isFalse (by intro hab; cases a; cases b; simp at hab; exact h hab)

/-- Lifecycle states from state.rs, one constructor per zero-sized state
struct. -/
inductive TState
  | Draft
  | PendingApproval
  | NeedsReapproval
  | Approved
  | SentToCounterparty
  | Executed
  | Cancelled
deriving DecidableEq, Repr

/-- Display names of the states, the NAME constants of state.rs. -/
def TState.name : TState → String
  | .Draft => "Draft"
  | .PendingApproval => "PendingApproval"
  | .NeedsReapproval => "NeedsReapproval"
  | .Approved => "Approved"
  | .SentToCounterparty => "SentToCounterparty"
  | .Executed => "Executed"
  | .Cancelled => "Cancelled"

/-- States carrying the CancellableState marker trait in state.rs. -/
def TState.cancellable : TState → Bool
  | .PendingApproval => true
  | .NeedsReapproval => true
  | .Approved => true
  | .SentToCounterparty => true
  | _ => false

/-- TradeAction enum from state.rs. -/
inductive TradeAction
  | Cancel
  | Submit
  | Accept
  | Update
  | Approve
  | SendToExecute
  | Book
deriving DecidableEq, Repr

/-- ToString for TradeAction from state.rs. -/
def TradeAction.display : TradeAction → String
  | .Cancel => "cancel"
  | .Submit => "submit"
  | .Accept => "accept"
  | .Update => "update"
  | .Approve => "approve"
  | .SendToExecute => "send to execute"
  | .Book => "book"

/-- MutTradeDetails from trade.rs: the eight mutable trade fields. -/
structure MutTradeDetails where
  counterparty : Counterparty
  direction : Direction
  style : Style
  notional_currency : Currency
  notional_amount : Nat
  underlying : List Currency
  value_date : UtcDateTime
  delivery_date : UtcDateTime
deriving DecidableEq, Repr

/-- TradeDetails from trade.rs, indexed by its phantom lifecycle state. -/
structure TradeDetails (s : TState) where
  trading_entity : User Requester
  mutable_details : MutTradeDetails
  trade_date : UtcDateTime
  strike : Option Nat
deriving DecidableEq, Repr

/-- TradeDetailsDiff from trade.rs: per-field optional before and after
pairs plus the optional strike. -/
structure TradeDetailsDiff where
  counterparty : Option (Counterparty × Counterparty)
  direction : Option (Direction × Direction)
  style : Option (Style × Style)
  notional_currency : Option (Currency × Currency)
  notional_amount : Option (Nat × Nat)
  underlying : Option (List Currency × List Currency)
  value_date : Option (UtcDateTime × UtcDateTime)
  delivery_date : Option (UtcDateTime × UtcDateTime)
  strike : Option Nat
deriving DecidableEq, Repr

/-- TradeDetailsDiff::new from trade.rs: returns none when the mutable
fields are equal and the post-transition strike is unset; otherwise builds
the diff, recording a pair per differing field (starting from the all-none
Default and assigning under the same inequality guards as the source) and
always copying the post-transition strike. -/
def TradeDetailsDiff.new {f t : TState}
    (from_details : TradeDetails f) (to_details : TradeDetails t) :
    Option TradeDetailsDiff :=
  let fr : MutTradeDetails := from_details.mutable_details
  let tm : MutTradeDetails := to_details.mutable_details
  if fr = tm ∧ to_details.strike = none then
    none
  else
    some {
      counterparty :=
        if fr.counterparty ≠ tm.counterparty then
          some (fr.counterparty, tm.counterparty) else none
      direction :=
        if fr.direction ≠ tm.direction then
          some (fr.direction, tm.direction) else none
      style :=
        if fr.style ≠ tm.style then some (fr.style, tm.style) else none
      notional_currency :=
        if fr.notional_currency ≠ tm.notional_currency then
          some (fr.notional_currency, tm.notional_currency) else none
      notional_amount :=
        if fr.notional_amount ≠ tm.notional_amount then
          some (fr.notional_amount, tm.notional_amount) else none
      underlying :=
        if fr.underlying ≠ tm.underlying then
          some (fr.underlying, tm.underlying) else none
      value_date :=
        if fr.value_date ≠ tm.value_date then
          some (fr.value_date, tm.value_date) else none
      delivery_date :=
        if fr.delivery_date ≠ tm.delivery_date then
          some (fr.delivery_date, tm.delivery_date) else none
      strike := to_details.strike
    }

/-- InvalidDetails from error.rs. -/
structure InvalidDetails where
  issue : String
deriving DecidableEq, Repr

/-- UnauthorisedRequester from error.rs: requester id and action strings,
with the originating state as a phantom parameter (its display name is
available as s.name). The error carries no trade record. -/
structure UnauthorisedRequester (s : TState) where
  requester : String
  action : String
deriving DecidableEq, Repr

/-- Issue string built by TradeDetails::check_details for the currency
membership failure: the source concatenates each underlying currency
display followed by a comma and trims the trailing comma, which is
intercalation by commas. -/
def currencyIssue (mut_details : MutTradeDetails) : String :=
  "Currency " ++ mut_details.notional_currency.display ++
    " not listed in the underlying " ++
    String.intercalate "," (mut_details.underlying.map Currency.display)

/-- Issue string built by TradeDetails::check_details for any of the three
date-ordering failures. -/
def dateIssue : String :=
  "Dates must be chronologically ordered"

/-- TradeDetails::check_details from trade.rs: the validation run on every
mutation. The three date comparisons are one short-circuit disjunction
producing the date issue; the membership test of the notional currency in
the underlying list follows, producing the currency issue. -/
def TradeDetails.check_details {s : TState} (self : TradeDetails s)
    (mut_details : MutTradeDetails) : Except InvalidDetails Unit :=
  if mut_details.value_date < self.trade_date ∨
      mut_details.delivery_date < self.trade_date ∨
      mut_details.delivery_date < mut_details.value_date then
    .error { issue := dateIssue }
  else if mut_details.notional_currency ∉ mut_details.underlying then
    .error { issue := currencyIssue mut_details }
  else
    .ok ()

/-- TradeDetails::force_transition from trade.rs: retags the record with
the target state, copying every field. -/
def TradeDetails.force_transition {f : TState} (self : TradeDetails f)
    (t : TState) : TradeDetails t :=
  { trading_entity := self.trading_entity
    mutable_details := self.mutable_details
    trade_date := self.trade_date
    strike := self.strike }

/-- TradeDetails::new from trade.rs: builds the candidate Draft record
with trade_date stamped from the wall clock (passed here as the explicit
parameter now), strike unset and trading_entity the creating requester,
then runs check_details on its own mutable fields. -/
def TradeDetails.new (user : User Requester) (counterparty : Counterparty)
    (direction : Direction) (style : Style) (currency : Currency)
    (amount : Nat) (underlying : List Currency)
    (value_date : UtcDateTime) (delivery_date : UtcDateTime)
    (now : UtcDateTime) : Except InvalidDetails (TradeDetails .Draft) :=
  let details : TradeDetails .Draft := {
    trading_entity := user
    mutable_details := {
      counterparty := counterparty
      direction := direction
      style := style
      notional_currency := currency
      notional_amount := amount
      underlying := underlying
      value_date := value_date
      delivery_date := delivery_date }
    trade_date := now
    strike := none }
  match details.check_details details.mutable_details with
  | .error e => .error e
  | .ok _ => .ok details

/-- Transitioner impl for User Requester from users.rs: compares the
acting user to the trading entity of the record; on mismatch it returns
the UnauthorisedRequester error built from the acting id and the action
display (the record is not part of the error), on match it applies the
mutation and retags the record with the target state. The body performs no
ledger operation. -/
def User.transitionR {f : TState} (self : User Requester)
    (details : TradeDetails f)
    (mutation : TradeDetails f → TradeDetails f) (action : TradeAction)
    (t : TState) :
    Except (UnauthorisedRequester f) (TradeDetails t) :=
  if details.trading_entity ≠ self then
    .error { requester := self.id, action := action.display }
  else
    .ok ((mutation details).force_transition t)

/-- Transitioner impl for User Approver from users.rs: applies the
mutation and retags the record with the target state, with no check
against the acting user and no possible failure. The body performs no
ledger operation. -/
def User.transitionA {f : TState} (_self : User Approver)
    (details : TradeDetails f)
    (mutation : TradeDetails f → TradeDetails f) (_action : TradeAction)
    (t : TState) : TradeDetails t :=
  (mutation details).force_transition t

/-- TradeDetails submit from trade.rs: requester transition from Draft to
PendingApproval with the identity mutation. -/
def TradeDetails.submit (self : TradeDetails .Draft)
    (requester : User Requester) :
    Except (UnauthorisedRequester .Draft) (TradeDetails .PendingApproval) :=
  requester.transitionR self (fun d => d) .Submit .PendingApproval

/-- TradeDetails accept from trade.rs: approver transition from
PendingApproval to Approved with the identity mutation. -/
def TradeDetails.accept (self : TradeDetails .PendingApproval)
    (approver : User Approver) : TradeDetails .Approved :=
  approver.transitionA self (fun d => d) .Accept .Approved

/-- TradeDetails update from trade.rs: runs check_details on the proposed
fields first and propagates its error before any transition; on success
the approver transition replaces the mutable fields and retags from
PendingApproval to NeedsReapproval. -/
def TradeDetails.update (self : TradeDetails .PendingApproval)
    (approver : User Approver) (new_details : MutTradeDetails) :
    Except InvalidDetails (TradeDetails .NeedsReapproval) :=
  match self.check_details new_details with
  | .error e => .error e
  | .ok _ =>
    .ok (approver.transitionA self
      (fun d => { d with mutable_details := new_details })
      .Update .NeedsReapproval)

/-- TradeDetails approve from trade.rs: requester transition from
NeedsReapproval to Approved with the identity mutation. -/
def TradeDetails.approve (self : TradeDetails .NeedsReapproval)
    (requester : User Requester) :
    Except (UnauthorisedRequester .NeedsReapproval)
      (TradeDetails .Approved) :=
  requester.transitionR self (fun d => d) .Approve .Approved

/-- TradeDetails send_to_execute from trade.rs: approver transition from
Approved to SentToCounterparty with the identity mutation. -/
def TradeDetails.send_to_execute (self : TradeDetails .Approved)
    (approver : User Approver) : TradeDetails .SentToCounterparty :=
  approver.transitionA self (fun d => d) .SendToExecute .SentToCounterparty

/-- Strike mutation used by TradeDetails book in trade.rs. -/
def bookMutation (strike_price : Nat) (s : TradeDetails .SentToCounterparty) :
    TradeDetails .SentToCounterparty :=
  { s with strike := some strike_price }

/-- TradeDetails book at a requester (book is generic over the
Transitioner; this is its instantiation at User Requester): sets the
strike and transitions from SentToCounterparty to Executed. -/
def TradeDetails.bookR (self : TradeDetails .SentToCounterparty)
    (strike_price : Nat) (user : User Requester) :
    Except (UnauthorisedRequester .SentToCounterparty)
      (TradeDetails .Executed) :=
  user.transitionR self (bookMutation strike_price) .Book .Executed

/-- TradeDetails book at an approver (the instantiation of book at
User Approver): sets the strike and transitions from SentToCounterparty to
Executed, infallibly. -/
def TradeDetails.bookA (self : TradeDetails .SentToCounterparty)
    (strike_price : Nat) (user : User Approver) : TradeDetails .Executed :=
  user.transitionA self (bookMutation strike_price) .Book .Executed

/-- TradeDetails cancel at a requester (cancel is gated by the
CancellableState trait, embedded as the hypothesis on s, and generic over
the Transitioner; this is its instantiation at User Requester). -/
def TradeDetails.cancelR {s : TState} (_hc : s.cancellable = true)
    (self : TradeDetails s) (user : User Requester) :
    Except (UnauthorisedRequester s) (TradeDetails .Cancelled) :=
  user.transitionR self (fun d => d) .Cancel .Cancelled

/-- TradeDetails cancel at an approver (the instantiation of cancel at
User Approver), gated by the same cancellable hypothesis. -/
def TradeDetails.cancelA {s : TState} (_hc : s.cancellable = true)
    (self : TradeDetails s) (user : User Approver) :
    TradeDetails .Cancelled :=
  user.transitionA self (fun d => d) .Cancel .Cancelled

/-- HistoricalRecord from history.rs. -/
structure HistoricalRecord where
  timestamp : UtcDateTime
  action : TradeAction
  user_id : String
  state_before : String
  state_after : String
  difference : Option TradeDetailsDiff
deriving DecidableEq, Repr

/-- HistoricalRecord::new from history.rs, with the wall clock passed as
the explicit parameter ts: state names are the NAME constants of the two
phantom states and the difference is computed by TradeDetailsDiff::new. -/
def HistoricalRecord.new {f t : TState} (ts : UtcDateTime)
    (action : TradeAction) (id : String) (from_details : TradeDetails f)
    (to_details : TradeDetails t) : HistoricalRecord :=
  { timestamp := ts
    action := action
    user_id := id
    state_before := f.name
    state_after := t.name
    difference := TradeDetailsDiff.new from_details to_details }

/-- TradeHistory from history.rs: the vector of records behind the global
HISTORY mutex. -/
structure TradeHistory where
  records : List HistoricalRecord
deriving DecidableEq, Repr

/-- TradeHistory::new from history.rs. -/
def TradeHistory.new : TradeHistory :=
  { records := [] }

/-- TradeHistory::add_record from history.rs: pushes the record at the end
of the vector. -/
def TradeHistory.add_record (self : TradeHistory)
    (record : HistoricalRecord) : TradeHistory :=
  { records := self.records ++ [record] }

/-- TradeHistory::clear from history.rs. -/
def TradeHistory.clear (_self : TradeHistory) : TradeHistory :=
  { records := [] }

/-- TradeHistory::total_record_count from history.rs. -/
def TradeHistory.total_record_count (self : TradeHistory) : Nat :=
  self.records.length

/-- TradeHistory::get_record from history.rs: none when the index is at
least the length, else the entry at the index. -/
def TradeHistory.get_record (self : TradeHistory) (step : Nat) :
    Option HistoricalRecord :=
  if h : step < self.records.length then some self.records[step]
  else none

/-- Global-ledger semantics of submit: the call is threaded with the state
of the HISTORY ledger before it and returns the ledger after it. The body
of Transitioner::transition for User Requester in users.rs contains no
ledger operation (appending is left as a TODO comment there), so the
ledger passes through the call unchanged. -/
def TradeDetails.submitWithLedger (self : TradeDetails .Draft)
    (requester : User Requester) (ledger : TradeHistory) :
    Except (UnauthorisedRequester .Draft) (TradeDetails .PendingApproval) ×
      TradeHistory :=
  (self.submit requester, ledger)

/-- Global-ledger semantics of update: the call is threaded with the state
of the HISTORY ledger before it and returns the ledger after it. Neither
check_details nor the Transitioner body for User Approver in users.rs
performs a ledger operation, so the ledger passes through the call
unchanged on both the error and the success path. -/
def TradeDetails.updateWithLedger (self : TradeDetails .PendingApproval)
    (approver : User Approver) (new_details : MutTradeDetails)
    (ledger : TradeHistory) :
    Except InvalidDetails (TradeDetails .NeedsReapproval) × TradeHistory :=
  (self.update approver new_details, ledger)

/-- Requester Bob from the end-to-end example scenario of the repository
test suite. -/
def bobUser : User Requester :=
  { id := "Bob" }

/-- The valid draft Bob creates in the end-to-end example scenario:
counterparty Maggie, BUY, notional currency USD (numeric code 840) with
amount 1, underlying USD and GBP (codes 840 and 826), value date one year
and delivery date one year and a day after the creation instant taken as
time zero (dates in days). -/
def exampleDraft : TradeDetails .Draft :=
  { trading_entity := bobUser
    mutable_details := {
      counterparty := { name := "Maggie" }
      direction := .BUY
      style := { label := "Forward Contract Currency Exchange." }
      notional_currency := { code := 840 }
      notional_amount := 1
      underlying := [{ code := 840 }, { code := 826 }]
      value_date := 365
      delivery_date := 366 }
    trade_date := 0
    strike := none }

/-- Validation predicate of check_details, spelled with non-strict
comparisons: the four rules of the specification. -/
def validDetails {s : TState} (self : TradeDetails s)
    (md : MutTradeDetails) : Prop :=
  self.trade_date ≤ md.value_date ∧ self.trade_date ≤ md.delivery_date ∧
    md.value_date ≤ md.delivery_date ∧
    md.notional_currency ∈ md.underlying

instance {s : TState} (self : TradeDetails s) (md : MutTradeDetails) :
    Decidable (validDetails self md) := by
  unfold validDetails
  infer_instance

theorem check_details_date_error {s : TState} (self : TradeDetails s)
    (md : MutTradeDetails)
    (h : md.value_date < self.trade_date ∨
      md.delivery_date < self.trade_date ∨
      md.delivery_date < md.value_date) :
    self.check_details md = .error { issue := dateIssue } := by
  unfold TradeDetails.check_details
  rw [if_pos h]

theorem check_details_currency_error {s : TState} (self : TradeDetails s)
    (md : MutTradeDetails)
    (hd : self.trade_date ≤ md.value_date ∧
      self.trade_date ≤ md.delivery_date ∧
      md.value_date ≤ md.delivery_date)
    (hc : md.notional_currency ∉ md.underlying) :
    self.check_details md = .error { issue := currencyIssue md } := by
  unfold TradeDetails.check_details
  rw [if_neg, if_pos hc]
  push_neg
  exact ⟨hd.1, hd.2.1, hd.2.2⟩

theorem check_details_ok {s : TState} (self : TradeDetails s)
    (md : MutTradeDetails) (h : validDetails self md) :
    self.check_details md = .ok () := by
  obtain ⟨h1, h2, h3, h4⟩ := h
  unfold TradeDetails.check_details
  rw [if_neg, if_neg]
  · simpa using h4
  · push_neg
    exact ⟨h1, h2, h3⟩

theorem check_details_error_of_invalid {s : TState} (self : TradeDetails s)
    (md : MutTradeDetails) (h : ¬ validDetails self md) :
    ∃ e : InvalidDetails, self.check_details md = .error e := by
  unfold validDetails at h
  push_neg at h
  by_cases hd : self.trade_date ≤ md.value_date ∧
      self.trade_date ≤ md.delivery_date ∧ md.value_date ≤ md.delivery_date
  · exact ⟨_, check_details_currency_error self md hd (h hd.1 hd.2.1 hd.2.2)⟩
  · push_neg at hd
    refine ⟨_, check_details_date_error self md ?_⟩
    by_cases h1 : self.trade_date ≤ md.value_date
    · by_cases h2 : self.trade_date ≤ md.delivery_date
      · exact Or.inr (Or.inr (hd h1 h2))
      · exact Or.inr (Or.inl (lt_of_not_le h2))
    · exact Or.inl (lt_of_not_le h1)

/-- C2: Create (TradeDetails::new) succeeds exactly when the value date
and the delivery date are at or after the creation instant, the delivery
date is at or after the value date, and the notional currency is a member
of the underlying list; on success the returned record is in Draft state
with strike unset, trading entity the creating requester, trade date the
creation instant and the given mutable fields; on any violation it fails
with an InvalidDetails error. -/
theorem create_spec (user : User Requester) (cp : Counterparty)
    (dir : Direction) (st : Style) (cur : Currency) (amt : Nat)
    (und : List Currency) (vd dd now : UtcDateTime) :
    (now ≤ vd ∧ now ≤ dd ∧ vd ≤ dd ∧ cur ∈ und →
      TradeDetails.new user cp dir st cur amt und vd dd now =
        .ok { trading_entity := user
              mutable_details :=
                { counterparty := cp, direction := dir, style := st
                  notional_currency := cur, notional_amount := amt
                  underlying := und, value_date := vd
                  delivery_date := dd }
              trade_date := now
              strike := none }) ∧
    (¬ (now ≤ vd ∧ now ≤ dd ∧ vd ≤ dd ∧ cur ∈ und) →
      ∃ e : InvalidDetails,
        TradeDetails.new user cp dir st cur amt und vd dd now =
          .error e) := by
  constructor
  · intro h
    have hv : validDetails (s := TState.Draft)
        { trading_entity := user
          mutable_details :=
            { counterparty := cp, direction := dir, style := st
              notional_currency := cur, notional_amount := amt
              underlying := und, value_date := vd, delivery_date := dd }
          trade_date := now
          strike := none }
        { counterparty := cp, direction := dir, style := st
          notional_currency := cur, notional_amount := amt
          underlying := und, value_date := vd, delivery_date := dd } :=
      ⟨h.1, h.2.1, h.2.2.1, h.2.2.2⟩
    unfold TradeDetails.new
    dsimp only
    rw [check_details_ok _ _ hv]
  · intro h
    obtain ⟨e, he⟩ := check_details_error_of_invalid
      (s := .Draft)
      { trading_entity := user
        mutable_details :=
          { counterparty := cp, direction := dir, style := st
            notional_currency := cur, notional_amount := amt
            underlying := und, value_date := vd, delivery_date := dd }
        trade_date := now
        strike := none }
      { counterparty := cp, direction := dir, style := st
        notional_currency := cur, notional_amount := amt
        underlying := und, value_date := vd, delivery_date := dd }
      h
    refine ⟨e, ?_⟩
    unfold TradeDetails.new
    dsimp only
    rw [he]

/-- C2 witness: a concrete successful creation, applying create_spec with
its hypothesis discharged by decide. -/
theorem create_spec_witness :
    TradeDetails.new { id := "W" } { name := "C" } .BUY { label := "S" }
      { code := 978 } 5 [{ code := 978 }] 3 4 0 =
      .ok { trading_entity := { id := "W" }
            mutable_details :=
              { counterparty := { name := "C" }, direction := .BUY
                style := { label := "S" }
                notional_currency := { code := 978 }, notional_amount := 5
                underlying := [{ code := 978 }], value_date := 3
                delivery_date := 4 }
            trade_date := 0
            strike := none } :=
  (create_spec { id := "W" } { name := "C" } .BUY { label := "S" }
    { code := 978 } 5 [{ code := 978 }] 3 4 0).1 (by decide)

/-- C8: check_details checks the date rules before the currency membership
rule: any violated date rule yields the date-ordering InvalidDetails issue
(even when the membership rule is also violated), the membership rule is
only reported when all three date rules hold, and when all four rules hold
the check succeeds. -/
theorem check_details_order {s : TState} (self : TradeDetails s)
    (md : MutTradeDetails) :
    (md.value_date < self.trade_date ∨ md.delivery_date < self.trade_date ∨
        md.delivery_date < md.value_date →
      self.check_details md = .error { issue := dateIssue }) ∧
    (self.trade_date ≤ md.value_date → self.trade_date ≤ md.delivery_date →
      md.value_date ≤ md.delivery_date →
      md.notional_currency ∉ md.underlying →
      self.check_details md = .error { issue := currencyIssue md }) ∧
    (self.trade_date ≤ md.value_date → self.trade_date ≤ md.delivery_date →
      md.value_date ≤ md.delivery_date →
      md.notional_currency ∈ md.underlying →
      self.check_details md = .ok ()) := by
  refine ⟨fun h => check_details_date_error self md h,
    fun h1 h2 h3 hc => check_details_currency_error self md ⟨h1, h2, h3⟩ hc,
    fun h1 h2 h3 hc => check_details_ok self md ⟨h1, h2, h3, hc⟩⟩

/-- C8 witness: a concrete record violating both a date rule and the
membership rule reports the date issue, applying check_details_order with
its hypotheses discharged by decide. -/
theorem check_details_order_witness :
    TradeDetails.check_details (s := .Draft)
      { trading_entity := { id := "W" }
        mutable_details :=
          { counterparty := { name := "C" }, direction := .SELL
            style := { label := "S" }
            notional_currency := { code := 826 }, notional_amount := 2
            underlying := [], value_date := 7, delivery_date := 6 }
        trade_date := 0
        strike := none }
      { counterparty := { name := "C" }, direction := .SELL
        style := { label := "S" }
        notional_currency := { code := 826 }, notional_amount := 2
        underlying := [], value_date := 7, delivery_date := 6 } =
      .error { issue := dateIssue } :=
  (check_details_order _ _).1 (by decide)

/-- C3: the requester transition fails exactly when the acting requester
differs from the trading entity of the record; the failure value is the
UnauthorisedRequester error built from the acting id and the action
display (it carries no trade record), and on a match the result is the
mutated record retagged with the target state. -/
theorem requester_transition_spec {f : TState} (t : TState)
    (u : User Requester) (d : TradeDetails f)
    (mutation : TradeDetails f → TradeDetails f) (action : TradeAction) :
    ((∃ e, u.transitionR d mutation action t = .error e) ↔
      d.trading_entity ≠ u) ∧
    (d.trading_entity ≠ u →
      u.transitionR d mutation action t =
        .error { requester := u.id, action := action.display }) ∧
    (d.trading_entity = u →
      u.transitionR d mutation action t =
        .ok ((mutation d).force_transition t)) := by
  unfold User.transitionR
  by_cases h : d.trading_entity = u
  · rw [if_neg (by simpa using h)]
    exact ⟨⟨fun ⟨e, he⟩ => by simp at he, fun hn => absurd h hn⟩,
      fun hn => absurd h hn, fun _ => rfl⟩
  · rw [if_pos h]
    exact ⟨⟨fun _ => h, fun _ => ⟨_, rfl⟩⟩, fun _ => rfl,
      fun he => absurd he h⟩

/-- C3 witness: a concrete mismatched submit fails with the concrete
error, applying requester_transition_spec with its hypothesis discharged
by decide. -/
theorem requester_transition_spec_witness :
    User.transitionR { id := "MaliciousUser" } exampleDraft (fun d => d)
      .Submit .PendingApproval =
      .error { requester := "MaliciousUser", action := "submit" } :=
  (requester_transition_spec .PendingApproval { id := "MaliciousUser" }
    exampleDraft (fun d => d) .Submit).2.1 (by decide)

/-- C4: an update whose proposed fields violate a validation rule fails
with an InvalidDetails error, the ledger after the call is the ledger
before it (no history entry appended), and no NeedsReapproval record is
produced. -/
theorem update_fail_fast (self : TradeDetails .PendingApproval)
    (approver : User Approver) (nd : MutTradeDetails)
    (ledger : TradeHistory) (hv : ¬ validDetails self nd) :
    ∃ e : InvalidDetails,
      self.updateWithLedger approver nd ledger = (.error e, ledger) := by
  obtain ⟨e, he⟩ := check_details_error_of_invalid self nd hv
  exact ⟨e, by
    simp only [TradeDetails.updateWithLedger, TradeDetails.update, he]⟩

/-- C4 witness: a concrete invalid update (value date before the trade
date) on a pending record, applying update_fail_fast with its hypothesis
discharged by decide. -/
theorem update_fail_fast_witness :
    ∃ e : InvalidDetails,
      (exampleDraft.force_transition .PendingApproval).updateWithLedger
        { id := "Ellie" }
        { counterparty := { name := "Maggie" }, direction := .BUY
          style := { label := "Forward Contract Currency Exchange." }
          notional_currency := { code := 840 }, notional_amount := 1000
          underlying := [{ code := 840 }, { code := 826 }]
          value_date := -1, delivery_date := 366 }
        TradeHistory.new =
        (.error e, TradeHistory.new) :=
  update_fail_fast (exampleDraft.force_transition .PendingApproval)
    { id := "Ellie" }
    { counterparty := { name := "Maggie" }, direction := .BUY
      style := { label := "Forward Contract Currency Exchange." }
      notional_currency := { code := 840 }, notional_amount := 1000
      underlying := [{ code := 840 }, { code := 826 }]
      value_date := -1, delivery_date := 366 }
    TradeHistory.new (by decide)

/-- C5: the diff of two snapshots is absent exactly when all eight mutable
fields are equal and the post-transition strike is unset; when a diff is
present it records the before and after pair for each differing field,
omits each equal field, and carries the post-transition strike, so a
transition that sets the strike always produces a diff. -/
theorem diff_spec {f t : TState} (a : TradeDetails f) (b : TradeDetails t) :
    (TradeDetailsDiff.new a b = none ↔
      a.mutable_details = b.mutable_details ∧ b.strike = none) ∧
    (∀ d : TradeDetailsDiff, TradeDetailsDiff.new a b = some d →
      (a.mutable_details.counterparty ≠ b.mutable_details.counterparty →
        d.counterparty = some (a.mutable_details.counterparty,
          b.mutable_details.counterparty)) ∧
      (a.mutable_details.counterparty = b.mutable_details.counterparty →
        d.counterparty = none) ∧
      (a.mutable_details.direction ≠ b.mutable_details.direction →
        d.direction = some (a.mutable_details.direction,
          b.mutable_details.direction)) ∧
      (a.mutable_details.direction = b.mutable_details.direction →
        d.direction = none) ∧
      (a.mutable_details.style ≠ b.mutable_details.style →
        d.style = some (a.mutable_details.style, b.mutable_details.style)) ∧
      (a.mutable_details.style = b.mutable_details.style →
        d.style = none) ∧
      (a.mutable_details.notional_currency ≠
          b.mutable_details.notional_currency →
        d.notional_currency = some (a.mutable_details.notional_currency,
          b.mutable_details.notional_currency)) ∧
      (a.mutable_details.notional_currency =
          b.mutable_details.notional_currency →
        d.notional_currency = none) ∧
      (a.mutable_details.notional_amount ≠
          b.mutable_details.notional_amount →
        d.notional_amount = some (a.mutable_details.notional_amount,
          b.mutable_details.notional_amount)) ∧
      (a.mutable_details.notional_amount =
          b.mutable_details.notional_amount →
        d.notional_amount = none) ∧
      (a.mutable_details.underlying ≠ b.mutable_details.underlying →
        d.underlying = some (a.mutable_details.underlying,
          b.mutable_details.underlying)) ∧
      (a.mutable_details.underlying = b.mutable_details.underlying →
        d.underlying = none) ∧
      (a.mutable_details.value_date ≠ b.mutable_details.value_date →
        d.value_date = some (a.mutable_details.value_date,
          b.mutable_details.value_date)) ∧
      (a.mutable_details.value_date = b.mutable_details.value_date →
        d.value_date = none) ∧
      (a.mutable_details.delivery_date ≠ b.mutable_details.delivery_date →
        d.delivery_date = some (a.mutable_details.delivery_date,
          b.mutable_details.delivery_date)) ∧
      (a.mutable_details.delivery_date = b.mutable_details.delivery_date →
        d.delivery_date = none) ∧
      d.strike = b.strike) ∧
    (b.strike ≠ none →
      ∃ d : TradeDetailsDiff, TradeDetailsDiff.new a b = some d ∧
        d.strike = b.strike) := by
  unfold TradeDetailsDiff.new
  dsimp only
  by_cases h : a.mutable_details = b.mutable_details ∧ b.strike = none
  · rw [if_pos h]
    refine ⟨by simp [h], ?_, ?_⟩
    · intro d hd
      exact absurd hd (by simp)
    · intro hs
      exact absurd h.2 hs
  · rw [if_neg h]
    refine ⟨⟨fun hx => absurd hx (by simp), fun hx => absurd hx h⟩,
      ?_, ?_⟩
    · intro d hd
      rw [Option.some_inj] at hd
      subst hd
      refine ⟨?_, ?_, ?_, ?_, ?_, ?_, ?_, ?_, ?_, ?_, ?_, ?_, ?_, ?_,
        ?_, ?_, rfl⟩
      all_goals intro hx
      all_goals simp [hx]
    · intro _
      exact ⟨_, rfl, rfl⟩

/-- C5 witness: for a concrete pair of snapshots where only the amount
changed and the strike became set, the concrete diff records the amount
pair, omits the counterparty and carries the strike, applying diff_spec at
the concrete diff value with its hypotheses discharged by decide. -/
theorem diff_spec_witness :
    ({ counterparty := none, direction := none, style := none
       notional_currency := none, notional_amount := some (1, 1000)
       underlying := none, value_date := none, delivery_date := none
       strike := some 900 } : TradeDetailsDiff).notional_amount =
        some (1, 1000) ∧
      ({ counterparty := none, direction := none, style := none
         notional_currency := none, notional_amount := some (1, 1000)
         underlying := none, value_date := none, delivery_date := none
         strike := some 900 } : TradeDetailsDiff).counterparty = none ∧
      ({ counterparty := none, direction := none, style := none
         notional_currency := none, notional_amount := some (1, 1000)
         underlying := none, value_date := none, delivery_date := none
         strike := some 900 } : TradeDetailsDiff).strike = some 900 := by
  have hspec := (diff_spec (exampleDraft.force_transition .SentToCounterparty)
    { trading_entity := bobUser
      mutable_details :=
        { counterparty := { name := "Maggie" }, direction := .BUY
          style := { label := "Forward Contract Currency Exchange." }
          notional_currency := { code := 840 }, notional_amount := 1000
          underlying := [{ code := 840 }, { code := 826 }]
          value_date := 365, delivery_date := 366 }
      trade_date := 0
      strike := some 900 : TradeDetails .Executed }).2.1
    { counterparty := none, direction := none, style := none
      notional_currency := none, notional_amount := some (1, 1000)
      underlying := none, value_date := none, delivery_date := none
      strike := some 900 } (by decide)
  exact ⟨hspec.2.2.2.2.2.2.2.2.1 (by decide), hspec.2.1 (by decide),
    hspec.2.2.2.2.2.2.2.2.2.2.2.2.2.2.2.2⟩

/-- C6: get_record returns an entry exactly for indices below the count;
add_record grows the count by one, keeps every previously assigned index
mapped to the same entry, and places the new record at the first fresh
index, after all existing entries. -/
theorem history_ledger_spec (h : TradeHistory) (r : HistoricalRecord)
    (i : Nat) :
    ((h.get_record i).isSome ↔ i < h.total_record_count) ∧
    (h.add_record r).total_record_count = h.total_record_count + 1 ∧
    (i < h.total_record_count →
      (h.add_record r).get_record i = h.get_record i) ∧
    (h.add_record r).get_record h.total_record_count = some r := by
  unfold TradeHistory.get_record TradeHistory.add_record
    TradeHistory.total_record_count
  refine ⟨?_, by simp, ?_, ?_⟩
  · constructor
    · intro hs
      by_contra hlt
      rw [dif_neg hlt] at hs
      simp at hs
    · intro hlt
      rw [dif_pos hlt]
      simp
  · intro hi
    have hi2 : i < (h.records ++ [r]).length := by
      rw [List.length_append]
      omega
    rw [dif_pos hi2, dif_pos hi, Option.some_inj]
    exact List.getElem_append_left hi
  · have hl : h.records.length < (h.records ++ [r]).length := by
      simp
    rw [dif_pos hl, Option.some_inj]
    exact List.getElem_concat_length h.records r h.records.length rfl hl

/-- C6 witness: in a concrete two-entry ledger, the entry appended first
keeps its index after the second append, applying history_ledger_spec with
its hypothesis discharged by decide. -/
theorem history_ledger_spec_witness :
    ((TradeHistory.new.add_record
        { timestamp := 0, action := .Submit, user_id := "Bob"
          state_before := "Draft", state_after := "PendingApproval"
          difference := none }).add_record
        { timestamp := 1, action := .Accept, user_id := "Ellie"
          state_before := "PendingApproval", state_after := "Approved"
          difference := none }).get_record 0 =
      (TradeHistory.new.add_record
        { timestamp := 0, action := .Submit, user_id := "Bob"
          state_before := "Draft", state_after := "PendingApproval"
          difference := none }).get_record 0 :=
  (history_ledger_spec
    (TradeHistory.new.add_record
      { timestamp := 0, action := .Submit, user_id := "Bob"
        state_before := "Draft", state_after := "PendingApproval"
        difference := none })
    { timestamp := 1, action := .Accept, user_id := "Ellie"
      state_before := "PendingApproval", state_after := "Approved"
      difference := none } 0).2.2.1 (by decide)

theorem transitionR_ok_frame {f t : TState} {u : User Requester}
    {d : TradeDetails f} {mutation : TradeDetails f → TradeDetails f}
    {action : TradeAction} {r : TradeDetails t}
    (hme : (mutation d).trading_entity = d.trading_entity)
    (hmd : (mutation d).trade_date = d.trade_date)
    (hr : u.transitionR d mutation action t = .ok r) :
    r.trading_entity = d.trading_entity ∧ r.trade_date = d.trade_date := by
  unfold User.transitionR at hr
  split at hr
  · exact absurd hr (by simp)
  · rw [Except.ok.injEq] at hr
    subst hr
    exact ⟨hme, hmd⟩

/-- C7: every named transition that returns a record preserves the trading
entity and the trade date of its input record; only the mutable fields,
the strike and the state tag change. -/
theorem frame_spec :
    (∀ (d : TradeDetails .Draft) (u : User Requester)
        (r : TradeDetails .PendingApproval), d.submit u = .ok r →
      r.trading_entity = d.trading_entity ∧ r.trade_date = d.trade_date) ∧
    (∀ (d : TradeDetails .PendingApproval) (a : User Approver),
      (d.accept a).trading_entity = d.trading_entity ∧
        (d.accept a).trade_date = d.trade_date) ∧
    (∀ (d : TradeDetails .PendingApproval) (a : User Approver)
        (nd : MutTradeDetails) (r : TradeDetails .NeedsReapproval),
      d.update a nd = .ok r →
      r.trading_entity = d.trading_entity ∧ r.trade_date = d.trade_date) ∧
    (∀ (d : TradeDetails .NeedsReapproval) (u : User Requester)
        (r : TradeDetails .Approved), d.approve u = .ok r →
      r.trading_entity = d.trading_entity ∧ r.trade_date = d.trade_date) ∧
    (∀ (d : TradeDetails .Approved) (a : User Approver),
      (d.send_to_execute a).trading_entity = d.trading_entity ∧
        (d.send_to_execute a).trade_date = d.trade_date) ∧
    (∀ (d : TradeDetails .SentToCounterparty) (k : Nat)
        (u : User Requester) (r : TradeDetails .Executed),
      d.bookR k u = .ok r →
      r.trading_entity = d.trading_entity ∧ r.trade_date = d.trade_date) ∧
    (∀ (d : TradeDetails .SentToCounterparty) (k : Nat) (a : User Approver),
      (d.bookA k a).trading_entity = d.trading_entity ∧
        (d.bookA k a).trade_date = d.trade_date) ∧
    (∀ (s : TState) (hc : s.cancellable = true) (d : TradeDetails s)
        (u : User Requester) (r : TradeDetails .Cancelled),
      TradeDetails.cancelR hc d u = .ok r →
      r.trading_entity = d.trading_entity ∧ r.trade_date = d.trade_date) ∧
    (∀ (s : TState) (hc : s.cancellable = true) (d : TradeDetails s)
        (a : User Approver),
      (TradeDetails.cancelA hc d a).trading_entity = d.trading_entity ∧
        (TradeDetails.cancelA hc d a).trade_date = d.trade_date) := by
  refine ⟨?_, fun d a => ⟨rfl, rfl⟩, ?_, ?_, fun d a => ⟨rfl, rfl⟩, ?_,
    fun d k a => ⟨rfl, rfl⟩, ?_, fun s hc d a => ⟨rfl, rfl⟩⟩
  · intro d u r hr
    unfold TradeDetails.submit at hr
    exact transitionR_ok_frame rfl rfl hr
  · intro d a nd r hr
    unfold TradeDetails.update at hr
    split at hr
    · exact absurd hr (by simp)
    · rw [Except.ok.injEq] at hr
      subst hr
      exact ⟨rfl, rfl⟩
  · intro d u r hr
    unfold TradeDetails.approve at hr
    exact transitionR_ok_frame rfl rfl hr
  · intro d k u r hr
    unfold TradeDetails.bookR at hr
    exact transitionR_ok_frame rfl rfl hr
  · intro s hc d u r hr
    unfold TradeDetails.cancelR at hr
    exact transitionR_ok_frame rfl rfl hr

/-- C7 witness: the concrete submit of the example draft by its owner,
applying frame_spec with its hypothesis discharged by rfl. -/
theorem frame_spec_witness :
    (exampleDraft.force_transition .PendingApproval).trading_entity =
        exampleDraft.trading_entity ∧
      (exampleDraft.force_transition .PendingApproval).trade_date =
        exampleDraft.trade_date :=
  frame_spec.1 exampleDraft bobUser
    (exampleDraft.force_transition .PendingApproval) rfl

/-- C9: every approver-capability transition returns the transitioned
record directly, with no comparison against the trading entity of the
record: accept, send_to_execute, book and cancel are the retagged
(possibly mutated) record whoever the approver is, and update does not
depend on the acting approver at all. -/
theorem approver_no_ownership_check :
    (∀ (d : TradeDetails .PendingApproval) (a : User Approver),
      d.accept a = d.force_transition .Approved) ∧
    (∀ (d : TradeDetails .PendingApproval) (a a2 : User Approver)
        (nd : MutTradeDetails), d.update a nd = d.update a2 nd) ∧
    (∀ (d : TradeDetails .Approved) (a : User Approver),
      d.send_to_execute a = d.force_transition .SentToCounterparty) ∧
    (∀ (d : TradeDetails .SentToCounterparty) (k : Nat) (a : User Approver),
      d.bookA k a = (bookMutation k d).force_transition .Executed) ∧
    (∀ (s : TState) (hc : s.cancellable = true) (d : TradeDetails s)
        (a : User Approver),
      TradeDetails.cancelA hc d a = d.force_transition .Cancelled) :=
  ⟨fun _ _ => rfl, fun _ _ _ _ => rfl, fun _ _ => rfl, fun _ _ _ => rfl,
    fun _ _ _ _ => rfl⟩

/-- C9 witness: a concrete approver cancel of a pending record, applying
approver_no_ownership_check with the cancellable hypothesis discharged by
rfl. -/
theorem approver_no_ownership_check_witness :
    TradeDetails.cancelA (s := .PendingApproval) rfl
      (exampleDraft.force_transition .PendingApproval) { id := "Ellie" } =
      (exampleDraft.force_transition .PendingApproval).force_transition
        .Cancelled :=
  approver_no_ownership_check.2.2.2.2 .PendingApproval rfl
    (exampleDraft.force_transition .PendingApproval) { id := "Ellie" }

/-- C10: the cancellable capability holds exactly for PendingApproval,
NeedsReapproval, Approved and SentToCounterparty; the cancel operations
take the capability as a construction-time hypothesis, so they are not
statable at Draft, Executed or Cancelled. -/
theorem cancellable_exactly (s : TState) :
    s.cancellable = true ↔
      (s = .PendingApproval ∨ s = .NeedsReapproval ∨ s = .Approved ∨
        s = .SentToCounterparty) := by
  cases s <;> decide

/-- C1 evidence: the concrete end-to-end scenario input (requester Bob
submits his own freshly created valid draft over the empty ledger): the
creation succeeds, the submit succeeds, and the ledger count after the
call equals the count before it instead of growing by one, because the
transition bodies in users.rs contain no ledger operation. -/
theorem submit_appends_no_ledger_entry :
    TradeDetails.new bobUser { name := "Maggie" } .BUY
      { label := "Forward Contract Currency Exchange." } { code := 840 } 1
      [{ code := 840 }, { code := 826 }] 365 366 0 = .ok exampleDraft ∧
    (exampleDraft.submitWithLedger bobUser TradeHistory.new).1 =
      .ok (exampleDraft.force_transition .PendingApproval) ∧
    (exampleDraft.submitWithLedger bobUser
        TradeHistory.new).2.total_record_count =
      TradeHistory.new.total_record_count ∧
    (exampleDraft.submitWithLedger bobUser
        TradeHistory.new).2.total_record_count ≠
      TradeHistory.new.total_record_count + 1 := by
  refine ⟨?_, ?_, rfl, by decide⟩
  · unfold TradeDetails.new
    dsimp only
    rw [check_details_ok _ _ (by decide)]
    rfl
  · unfold TradeDetails.submitWithLedger TradeDetails.submit
      User.transitionR
    dsimp only
    rw [if_neg (by decide)]
